import Mathlib

/-!
Verification of the plugin acquisition and lifecycle engine of the
minecraft-server-manager repository.

The Python sources embedded here (shallowly, as pure Lean functions over
explicit state) are:
  - plugin_apis.py      : normalized search/version data types, the
                          server-type to source map, and the aggregate
                          search helper search_plugins;
  - plugin_validator.py : metadata extraction from an archive and the
                          five validation checks run by PluginValidator;
  - plugin_manager.py   : the installed-plugin registry, install, update,
                          uninstall, listing with reconciliation, backup
                          and restore helpers, and the recursive
                          dependency-resolution pass.

Modelling conventions, applied uniformly:
  - Network calls (adapter search results, version lists, download URLs,
    dependency lists, downloaded bytes) are inputs to the embedded
    functions, mirroring the await boundaries of the source.
  - File bytes are abstracted as Nat content identifiers; a directory is
    an association list from filename to content.  The file-size field
    recorded by the source (stat().st_size) is abstracted by the content
    identifier of the written file.
  - External manifest parsers (PyYAML, json) sit behind the per-entry
    parse field of the archive model: none models a raised parse or
    decode error, which the source catches and turns into a None result.
  - Dynamic parts of human-readable message strings (interpolated names,
    paths) are omitted; severities, fields and the messages the claims
    depend on are kept verbatim.
  - Filesystem copy, write and delete operations are modeled as
    succeeding; the OSError branches of the source (disk full,
    permissions) are outside every claim considered here.
-/

namespace MCSM

/-! Python string primitives used by the embedded code, implemented over
the character sequence of the string so that every embedded function
evaluates by kernel reduction on concrete inputs. -/

/-- Python str.lower (ASCII range, which covers every string the
embedded code lowercases: server types and plugin names). -/
def py_lower (s : String) : String :=
  String.mk (s.data.map Char.toLower)

/-- Python str.endswith. -/
def py_endswith (s suffix : String) : Bool :=
  List.isSuffixOf suffix.data s.data

/-- Python membership test of a single character in a string. -/
def py_contains (s : String) (c : Char) : Bool :=
  s.data.contains c

/-- The substring after the last slash: url.rsplit("/", 1)[-1], as used
under the guard that the url contains a slash (without one it returns
the whole string, like rsplit does). -/
def py_last_slash_component (s : String) : String :=
  String.mk (s.data.foldl
    (fun acc c => if c = '/' then [] else acc ++ [c]) [])

/-- Python str.split(sep) for a one-character separator: empty
components are kept, the empty string yields one empty component. -/
def split_char (c : Char) : List Char → List (List Char)
  | [] => [[]]
  | x :: xs =>
    let r := split_char c xs
    if x = c then [] :: r
    else
      match r with
      | [] => [[x]]
      | h :: t => (x :: h) :: t

/-- Python int(s) restricted to the canonical digit strings appearing
in version components; anything else is the ValueError branch. -/
def py_int? (cs : List Char) : Option Nat :=
  if cs.isEmpty then none
  else if cs.all Char.isDigit then
    some (cs.foldl (fun n c => n * 10 + (c.toNat - 48)) 0)
  else none

/-- Normalised search result returned by all API clients
(plugin_apis.PluginSearchResult; the float rating and the optional icon
URL are omitted: nothing in the verified operations reads them). -/
structure PluginSearchResult where
  id : String
  name : String
  description : String := ""
  author : String := ""
  downloads : Nat := 0
  source : String := ""
  page_url : String := ""
  categories : List String := []
  mc_versions : List String := []
deriving Repr, DecidableEq

/-- Normalised version entry (plugin_apis.PluginVersion). -/
structure PluginVersion where
  id : String
  version_number : String
  mc_versions : List String := []
  download_url : Option String := none
  filename : Option String := none
  release_date : Option String := none
  channel : String := "release"
  dependencies : List String := []
  file_size : Nat := 0
deriving Repr, DecidableEq

/-- Server type to API source list (plugin_apis._SERVER_SOURCE_MAP). -/
def _SERVER_SOURCE_MAP : List (String × List String) :=
  [ ("paper",      ["modrinth", "hangar", "spigotmc"]),
    ("spigot",     ["spigotmc", "modrinth"]),
    ("purpur",     ["hangar", "modrinth", "spigotmc"]),
    ("fabric",     ["modrinth", "curseforge"]),
    ("forge",      ["curseforge", "modrinth"]),
    ("quilt",      ["modrinth"]),
    ("vanilla",    []),
    ("velocity",   ["hangar", "modrinth"]),
    ("bungeecord", ["spigotmc"]) ]

/-- Source lookup performed by plugin_apis.search_plugins:
_SERVER_SOURCE_MAP.get(server_type.lower(), ["modrinth"]). -/
def serverSources (server_type : String) : List String :=
  (_SERVER_SOURCE_MAP.lookup (py_lower server_type)).getD ["modrinth"]

/-- Comparison used to model list.sort(key=lambda r: r.downloads,
reverse=True): a may come before b exactly when the downloads of a are at
least the downloads of b.  Python list.sort is a stable sort, and a
stable sort into this order is a unique function of its input, so any
stable implementation embeds it faithfully; List.insertionSort with this
relation is such an implementation (sortedness, permutation and
stability are proved below). -/
def downloadsDescRel (a b : PluginSearchResult) : Prop :=
  b.downloads ≤ a.downloads

instance : DecidableRel downloadsDescRel := fun a b =>
  inferInstanceAs (Decidable (b.downloads ≤ a.downloads))

instance : IsTotal PluginSearchResult downloadsDescRel :=
  ⟨fun a b => (Nat.le_total b.downloads a.downloads).imp id id⟩

instance : IsTrans PluginSearchResult downloadsDescRel :=
  ⟨fun _ _ _ h1 h2 => Nat.le_trans h2 h1⟩

/-- Aggregate search (plugin_apis.search_plugins), with each applicable
adapter call replaced by its result list.  The source checks membership of
each source name in the mapped list in the fixed order modrinth, hangar,
spigotmc, curseforge, extends one combined list, and finally applies the
stable descending sort by downloads. -/
def search_plugins (server_type : String)
    (modrinth_results hangar_results spigot_results curseforge_results :
      List PluginSearchResult) : List PluginSearchResult :=
  let sources := serverSources server_type
  let all_results :=
    (if sources.contains "modrinth" then modrinth_results else []) ++
    (if sources.contains "hangar" then hangar_results else []) ++
    (if sources.contains "spigotmc" then spigot_results else []) ++
    (if sources.contains "curseforge" then curseforge_results else [])
  all_results.insertionSort downloadsDescRel

/-- Concatenation of applicable adapter results before sorting, named so
theorems can speak about the pre-sort order (the source-adapter order). -/
def search_concat (server_type : String)
    (modrinth_results hangar_results spigot_results curseforge_results :
      List PluginSearchResult) : List PluginSearchResult :=
  let sources := serverSources server_type
  (if sources.contains "modrinth" then modrinth_results else []) ++
  (if sources.contains "hangar" then hangar_results else []) ++
  (if sources.contains "spigotmc" then spigot_results else []) ++
  (if sources.contains "curseforge" then curseforge_results else [])

/-! Validator embedding (plugin_validator.py). -/

/-- Extracted metadata from a plugin archive (plugin_validator.PluginMeta),
with the same defaults as the Python dataclass. -/
structure PluginMeta where
  name : String := "Unknown"
  version : String := "Unknown"
  main_class : String := ""
  api_version : Option String := none
  description : String := ""
  authors : List String := []
  depend : List String := []
  soft_depend : List String := []
  load_before : List String := []
  plugin_type : String := "bukkit"
deriving Repr, DecidableEq

/-- A single validation issue (plugin_validator.ValidationIssue). -/
structure ValidationIssue where
  severity : String
  message : String
  field : String := ""
deriving Repr, DecidableEq

/-- Aggregated result of all validation checks
(plugin_validator.ValidationResult). -/
structure ValidationResult where
  plugin_name : String
  is_valid : Bool := true
  issues : List ValidationIssue := []
deriving Repr, DecidableEq

/-- ValidationResult.add_error: appends an error issue and clears
is_valid. -/
def ValidationResult.add_error (r : ValidationResult)
    (message : String) (field_name : String := "") : ValidationResult :=
  { r with issues := r.issues ++ [⟨"error", message, field_name⟩],
           is_valid := false }

/-- ValidationResult.add_warning: appends a warning issue only. -/
def ValidationResult.add_warning (r : ValidationResult)
    (message : String) (field_name : String := "") : ValidationResult :=
  { r with issues := r.issues ++ [⟨"warning", message, field_name⟩] }

/-- ValidationResult.add_info: appends an info issue only. -/
def ValidationResult.add_info (r : ValidationResult)
    (message : String) (field_name : String := "") : ValidationResult :=
  { r with issues := r.issues ++ [⟨"info", message, field_name⟩] }

/-- Model of one candidate archive on disk, as observed by
plugin_validator.extract_plugin_meta and the integrity check.  The parse
field abstracts reading a named manifest entry and parsing it with the
format of its branch (PyYAML for plugin.yml and bungee.yml, json for the
Velocity and Fabric manifests); none models a raised read, decode or
parse error, which the source catches and converts to a None result.
testzip_bad is the value returned by ZipFile.testzip: the name of the
first corrupt member, or none. -/
structure JarFile where
  stem : String
  is_jar_suffix : Bool
  exists_on_disk : Bool
  size : Nat
  valid_zip : Bool
  names : List String
  parse : String → Option PluginMeta
  testzip_bad : Option String

/-- plugin_validator.extract_plugin_meta: returns none for a missing
file, a non-.jar path or an unreadable zip, then checks the five known
manifest entries in fixed priority order, first match wins; a manifest
entry ending in mods.toml yields the fixed Forge metadata without
parsing; no recognized entry yields none. -/
def extract_plugin_meta (jar : JarFile) : Option PluginMeta :=
  if ¬ jar.exists_on_disk ∨ ¬ jar.is_jar_suffix then none
  else if ¬ jar.valid_zip then none
  else if jar.names.contains "plugin.yml" then jar.parse "plugin.yml"
  else if jar.names.contains "bungee.yml" then jar.parse "bungee.yml"
  else if jar.names.contains "velocity-plugin.json" then
    jar.parse "velocity-plugin.json"
  else if jar.names.contains "fabric.mod.json" then
    jar.parse "fabric.mod.json"
  else if jar.names.any (fun n => py_endswith n "mods.toml") then
    some { name := "Forge Mod", plugin_type := "forge" }
  else none

/-- State of PluginValidator (plugin_validator.PluginValidator.__init__
lowercases server_type; the plugins directory is modeled as its glob of
jar files, an association of filename to archive, plus its existence
flag). -/
structure PluginValidator where
  server_type : String
  mc_version : String
  dir_exists : Bool
  dir : List (String × JarFile)

/-- Constructor mirroring PluginValidator.__init__ (server_type.lower()).
-/
def PluginValidator.init (server_type mc_version : String)
    (dir_exists : Bool) (dir : List (String × JarFile)) : PluginValidator :=
  { server_type := py_lower server_type, mc_version := mc_version,
    dir_exists := dir_exists, dir := dir }

/-- PluginValidator._check_jar_integrity: error when the file is missing,
empty, or not a valid zip; a corrupt member reported by testzip yields a
warning. -/
def PluginValidator._check_jar_integrity (jar : JarFile)
    (result : ValidationResult) : ValidationResult :=
  if ¬ jar.exists_on_disk then result.add_error "File not found"
  else if jar.size = 0 then result.add_error "JAR file is empty (0 bytes)"
  else if ¬ jar.valid_zip then
    result.add_error "File is not a valid JAR/ZIP archive"
  else
    match jar.testzip_bad with
    | some _ => result.add_warning "Corrupted file inside JAR"
    | none => result

/-- Platform compatibility table of
PluginValidator._check_server_compatibility. -/
def compatibility_map : List (String × List String) :=
  [ ("paper", ["bukkit"]), ("spigot", ["bukkit"]), ("purpur", ["bukkit"]),
    ("fabric", ["fabric"]), ("forge", ["forge"]),
    ("velocity", ["velocity"]), ("bungeecord", ["bungeecord"]) ]

/-- PluginValidator._check_server_compatibility: error when plugin_type is
not in the allowed set for the configured server type. -/
def PluginValidator._check_server_compatibility (cfg : PluginValidator)
    (meta : PluginMeta) (result : ValidationResult) : ValidationResult :=
  let allowed := (compatibility_map.lookup cfg.server_type).getD []
  if ¬ allowed.contains meta.plugin_type then
    result.add_error "Plugin type is not compatible with server"
      "plugin_type"
  else result

/-- Version-string parse used by _check_mc_version:
[int(x) for x in s.split(".")], with a failed conversion modeled as
none (the ValueError branch).  Only canonical digit components are
modeled. -/
def parse_version_parts (s : String) : Option (List Nat) :=
  (split_char '.' s.data).mapM py_int?

/-- Python list comparison a > b on integer lists (lexicographic, a
strict prefix is smaller). -/
def list_gt : List Nat → List Nat → Bool
  | _ :: _, [] => true
  | [], _ => false
  | a :: as, b :: bs => a > b || (a == b && list_gt as bs)

/-- PluginValidator._check_mc_version: warns when the declared API
version (major, minor) exceeds the configured Minecraft version, info
when a version string fails to parse, nothing when no API version is
declared. -/
def PluginValidator._check_mc_version (cfg : PluginValidator)
    (meta : PluginMeta) (result : ValidationResult) : ValidationResult :=
  match meta.api_version with
  | none => result
  | some api =>
    match parse_version_parts api, parse_version_parts cfg.mc_version with
    | some api_parts, some mc_parts =>
      if list_gt (api_parts.take 2) (mc_parts.take 2) then
        result.add_warning
          "Plugin targets a newer API version than the server is running"
          "api_version"
      else result
    | _, _ => result.add_info "Could not parse API version"

/-- PluginValidator._check_duplicates: scans the directory for a
different jar whose extracted metadata name matches and adds a warning
for each. -/
def PluginValidator._check_duplicates (cfg : PluginValidator)
    (meta : PluginMeta) (jar_path : String)
    (result : ValidationResult) : ValidationResult :=
  if ¬ cfg.dir_exists then result
  else
    cfg.dir.foldl
      (fun r other =>
        if other.1 == jar_path then r
        else
          match extract_plugin_meta other.2 with
          | some other_meta =>
            if other_meta.name == meta.name then
              r.add_warning "Duplicate plugin detected" "duplicate"
            else r
          | none => r)
      result

/-- PluginValidator._check_dependencies: warns for each declared hard
dependency whose name is not among the metadata names extracted from the
directory. -/
def PluginValidator._check_dependencies (cfg : PluginValidator)
    (meta : PluginMeta) (result : ValidationResult) : ValidationResult :=
  if meta.depend.isEmpty ∨ ¬ cfg.dir_exists then result
  else
    let installed_plugins :=
      cfg.dir.filterMap (fun p => (extract_plugin_meta p.2).map (·.name))
    meta.depend.foldl
      (fun r dep =>
        if ¬ installed_plugins.contains dep then
          r.add_warning "Required dependency not found in plugins directory"
            "depend"
        else r)
      result

/-- PluginValidator.validate: extracts metadata (result name falls back
to the path stem), returns a single error when extraction yields nothing,
otherwise runs the five checks in order. -/
def PluginValidator.validate (cfg : PluginValidator)
    (jar_path : String) (jar : JarFile) : ValidationResult :=
  match extract_plugin_meta jar with
  | none =>
    (ValidationResult.mk jar.stem true []).add_error
      "Could not extract plugin metadata from JAR file"
  | some meta =>
    let result : ValidationResult := ⟨meta.name, true, []⟩
    let r1 := PluginValidator._check_jar_integrity jar result
    let r2 := PluginValidator._check_server_compatibility cfg meta r1
    let r3 := PluginValidator._check_mc_version cfg meta r2
    let r4 := PluginValidator._check_duplicates cfg meta jar_path r3
    PluginValidator._check_dependencies cfg meta r4

/-! Plugin manager embedding (plugin_manager.py). -/

/-- Unified result for plugin operations (plugin_manager.Result; the
heterogeneous details dict is omitted, the claims read only success,
message and error). -/
structure Result where
  success : Bool
  message : String
  error : Option String := none
deriving Repr, DecidableEq

/-- Result.ok classmethod. -/
def Result.ok (message : String) : Result :=
  { success := true, message := message }

/-- Result.fail classmethod. -/
def Result.fail (message : String) (error : Option String := none) :
    Result :=
  { success := false, message := message, error := error }

/-- A registry record (plugin_manager.InstalledPlugin), with the
constructor defaults of the source. -/
structure InstalledPlugin where
  name : String
  version : String
  source : String
  source_id : String
  filename : String
  installed_at : String
  mc_version : String := ""
  auto_update : Bool := false
  dependencies : List String := []
  file_size : Nat := 0
  description : String := ""
  author : String := ""
deriving Repr, DecidableEq

/-- The JSON object written for one record by InstalledPlugin.to_dict:
all twelve fields are always present. -/
structure PluginJson where
  name : String
  version : String
  source : String
  source_id : String
  filename : String
  installed_at : String
  mc_version : String
  auto_update : Bool
  dependencies : List String
  file_size : Nat
  description : String
  author : String
deriving Repr, DecidableEq

/-- InstalledPlugin.to_dict. -/
def InstalledPlugin.to_dict (p : InstalledPlugin) : PluginJson :=
  ⟨p.name, p.version, p.source, p.source_id, p.filename, p.installed_at,
   p.mc_version, p.auto_update, p.dependencies, p.file_size,
   p.description, p.author⟩

/-- InstalledPlugin.from_dict (every field is present in what to_dict
wrote, so the per-field defaults of the source are never reached for a
file the manager itself persisted). -/
def InstalledPlugin.from_dict (d : PluginJson) : InstalledPlugin :=
  ⟨d.name, d.version, d.source, d.source_id, d.filename, d.installed_at,
   d.mc_version, d.auto_update, d.dependencies, d.file_size,
   d.description, d.author⟩

/-- A directory as an association list from filename to abstract file
content. -/
abbrev FS := List (String × Nat)

/-- Read a file: Path.exists and open combined. -/
def fsGet (fs : FS) (n : String) : Option Nat :=
  List.lookup n fs

/-- Write (create or overwrite) a file. -/
def fsSet (fs : FS) (n : String) (c : Nat) : FS :=
  (n, c) :: (List.filter (fun p => !(p.1 == n)) fs)

/-- Delete a file (Path.unlink). -/
def fsDel (fs : FS) (n : String) : FS :=
  List.filter (fun p => !(p.1 == n)) fs

/-- State of a PluginManager: the in-memory registry list, the plugins
directory, the backup directory (newest backup first, keyed by the
sanitized plugin name that prefixes the glob pattern used on restore),
the persisted registry file, and a counter of _download_file
invocations. -/
structure PMState where
  installed : List InstalledPlugin
  plugins_fs : FS
  backups : List (String × Nat)
  persisted : Option (List PluginJson)
  download_count : Nat
deriving Repr, DecidableEq

/-- PluginManager.get_plugin: first record whose lowercased name equals
the lowercased argument. -/
def get_plugin (installed : List InstalledPlugin) (name : String) :
    Option InstalledPlugin :=
  installed.find? (fun p => py_lower p.name == py_lower name)

/-- Character sanitization shared by _backup_plugin,
_restore_latest_backup and _safe_filename: keep alphanumerics and
the characters -_. and replace everything else by a dash. -/
def sanitize (s : String) : String :=
  String.mk (s.toList.map
    (fun c => if c.isAlphanum ∨ c = '-' ∨ c = '_' ∨ c = '.' then c
              else '-'))

/-- PluginManager._safe_filename: the sanitized last URL segment when it
ends in .jar, else the sanitized plugin name with .jar appended. -/
def _safe_filename (name url : String) : String :=
  let url_filename :=
    if py_contains url '/' then py_last_slash_component url else ""
  if py_endswith url_filename ".jar" then sanitize url_filename
  else sanitize name ++ ".jar"

/-- PluginManager._backup_plugin: when the jar exists, copy it into the
backup directory (newest first) and return the backup key.  The version
and timestamp components of the backup filename are abstracted into the
single key sanitize(name), so the restore glob safe_name_*.jar is
modeled as matching the backups with the same key; the cross-name
collisions the glob admits (one sanitized name extending another
through an underscore) are outside this model and outside every claim
here. -/
def _backup_plugin (st : PMState) (plugin : InstalledPlugin) :
    Option String × PMState :=
  match fsGet st.plugins_fs plugin.filename with
  | none => (none, st)
  | some content =>
    let key := sanitize plugin.name
    (some key, { st with backups := (key, content) :: st.backups })

/-- PluginManager._restore_latest_backup: copy the most recent backup
whose name matches the sanitized plugin name back over the plugin
filename; false when no backup matches. -/
def _restore_latest_backup (st : PMState) (plugin : InstalledPlugin) :
    Bool × PMState :=
  match (st.backups.filter (fun b => b.1 == sanitize plugin.name)).head?
  with
  | none => (false, st)
  | some b =>
    (true,
     { st with plugins_fs := fsSet st.plugins_fs plugin.filename b.2 })

/-- PluginManager._save_registry: rewrite the whole persisted table from
the in-memory list. -/
def _save_registry (st : PMState) : PMState :=
  { st with persisted := some (st.installed.map InstalledPlugin.to_dict) }

/-- PluginManager._load_registry: a missing file leaves the list empty,
otherwise every entry of the plugins array is read back through
from_dict. -/
def _load_registry (persisted : Option (List PluginJson)) :
    List InstalledPlugin :=
  (persisted.getD []).map InstalledPlugin.from_dict

/-- PluginManager.get_installed_plugins: keep the records whose jar
exists; when at least one record was dropped, replace the in-memory list
and persist the pruned table. -/
def get_installed_plugins (st : PMState) :
    List InstalledPlugin × PMState :=
  let valid :=
    st.installed.filter (fun p => (fsGet st.plugins_fs p.filename).isSome)
  let removed := st.installed.length - valid.length
  if removed > 0 then
    (valid, _save_registry { st with installed := valid })
  else (valid, st)

/-- PluginManager.uninstall_plugin: look the record up
case-insensitively, back up and delete its jar when present, then filter
the registry with an exact, case-sensitive comparison against the
argument and persist. -/
def uninstall_plugin (st : PMState) (plugin_name : String) :
    Result × PMState :=
  match get_plugin st.installed plugin_name with
  | none => (Result.fail "Plugin not found in registry" (some "Not installed"), st)
  | some record =>
    let st1 :=
      if (fsGet st.plugins_fs record.filename).isSome then
        let (_, stb) := _backup_plugin st record
        { stb with plugins_fs := fsDel stb.plugins_fs record.filename }
      else st
    let st2 :=
      { st1 with
        installed :=
          st1.installed.filter (fun p => !(p.name == plugin_name)) }
    (Result.ok "Removed plugin", _save_registry st2)

/-- Download-and-commit phase of PluginManager.install_plugin (steps 7
to 10 of the source): download to the destination, validate the written
archive (deleting it and failing on an invalid result, with no restore
of the backup), extract metadata whose non-empty version supersedes the
resolved one, build the record, replace every record of exactly the same
name and persist.  The validator and metadata extractor are abstracted
as functions of the downloaded content; download_ok=false models the
non-200 branch of _download_file, which writes nothing. -/
def install_download_phase (mc_version : String) (st : PMState)
    (plugin : PluginSearchResult) (filename : String)
    (resolved_version : String) (download_ok : Bool)
    (downloaded_content : Nat) (validator_is_valid : Nat → Bool)
    (meta_of : Nat → Option PluginMeta) (now : String) :
    Result × PMState :=
  let st1 := { st with download_count := st.download_count + 1 }
  if ¬ download_ok then
    (Result.fail "Download failed" (some "HTTP error or network issue"),
     st1)
  else
    let st2 :=
      { st1 with
        plugins_fs := fsSet st1.plugins_fs filename downloaded_content }
    if ¬ validator_is_valid downloaded_content then
      (Result.fail "Validation failed",
       { st2 with plugins_fs := fsDel st2.plugins_fs filename })
    else
      let meta? := meta_of downloaded_content
      let resolved_version' :=
        match meta? with
        | some m => if ¬ m.version == "" then m.version
                    else resolved_version
        | none => resolved_version
      let record : InstalledPlugin :=
        { name := plugin.name, version := resolved_version',
          source := plugin.source, source_id := plugin.id,
          filename := filename, installed_at := now,
          mc_version := mc_version,
          dependencies := match meta? with
                          | some m => m.depend
                          | none => [],
          file_size := downloaded_content,
          description := plugin.description, author := plugin.author }
      let st3 :=
        { st2 with
          installed :=
            st2.installed.filter (fun p => !(p.name == plugin.name))
              ++ [record] }
      (Result.ok "Successfully installed", _save_registry st3)

/-- PluginManager.install_plugin after version resolution and the
dependency pass (steps 4 to 10 of the source; the dependency pass, step
3, is modeled separately by install_plugin_fuel, and never touches the
download of the plugin itself): compute the safe filename, short-circuit
with success when a record of this name already carries the resolved
version, back up an existing record, then run the download-and-commit
phase. -/
def install_core (mc_version : String) (st : PMState)
    (plugin : PluginSearchResult) (download_url resolved_version : String)
    (download_ok : Bool) (downloaded_content : Nat)
    (validator_is_valid : Nat → Bool) (meta_of : Nat → Option PluginMeta)
    (now : String) : Result × PMState :=
  let filename := _safe_filename plugin.name download_url
  match get_plugin st.installed plugin.name with
  | some existing =>
    if existing.version == resolved_version then
      (Result.ok "already installed", st)
    else
      let (_, st1) := _backup_plugin st existing
      install_download_phase mc_version st1 plugin filename
        resolved_version download_ok downloaded_content
        validator_is_valid meta_of now
  | none =>
    install_download_phase mc_version st plugin filename
      resolved_version download_ok downloaded_content
      validator_is_valid meta_of now

/-- PluginManager.update_plugin after the version fetch (the network
call _get_versions is replaced by its result list, and the download URL
resolution by its result): fail without any filesystem change when no
versions exist, succeed when the newest version equals the recorded one,
otherwise back up the current jar, download over the recorded filename,
and on validation failure restore the latest backup; on success the
record is mutated in place and the registry persisted. -/
def update_core (st : PMState) (plugin_name : String)
    (versions : List PluginVersion) (resolved_url : Option String)
    (download_ok : Bool) (downloaded_content : Nat)
    (validator_is_valid : Nat → Bool) (now : String) :
    Result × PMState :=
  match get_plugin st.installed plugin_name with
  | none => (Result.fail "Plugin not found" (some "Not installed"), st)
  | some record =>
    match versions with
    | [] =>
      (Result.fail "No versions found" (some "API returned no versions"),
       st)
    | latest :: _ =>
      if latest.version_number == record.version then
        (Result.ok "already up to date", st)
      else
        let (_, st1) := _backup_plugin st record
        match resolved_url with
        | none =>
          (Result.fail "Could not resolve download URL for update"
            (some "Version download URL unavailable"), st1)
        | some _ =>
          let st2 := { st1 with download_count := st1.download_count + 1 }
          if ¬ download_ok then
            (Result.fail "Download failed"
              (some "HTTP error or network issue"), st2)
          else
            let st3 :=
              { st2 with
                plugins_fs :=
                  fsSet st2.plugins_fs record.filename
                    downloaded_content }
            if ¬ validator_is_valid downloaded_content then
              let (_, st4) := _restore_latest_backup st3 record
              (Result.fail "Validation failed for update", st4)
            else
              let record' :=
                { record with version := latest.version_number,
                              installed_at := now,
                              file_size := downloaded_content }
              let st4 :=
                { st3 with
                  installed :=
                    st3.installed.map
                      (fun p => if p == record then record' else p) }
              (Result.ok "Updated", _save_registry st4)

/-- PluginManager._resolve_version, with each adapter network call
replaced by its result: the version lists per source, and the secondary
download-URL calls as functions of the chosen version id (for Hangar and
CurseForge) or of the requested version string (for SpigotMC). -/
def _resolve_version (plugin : PluginSearchResult)
    (modrinth_versions hangar_versions curseforge_versions :
      List PluginVersion)
    (hangar_download_url : String → Option String)
    (spigot_download_url : String → Option String)
    (curseforge_download_url : String → Option String)
    (version_id : Option String) : Option String × String :=
  if plugin.source == "modrinth" then
    match modrinth_versions with
    | [] => (none, "")
    | v0 :: _ =>
      let target :=
        match version_id with
        | some vid =>
          match modrinth_versions.find?
              (fun v : PluginVersion =>
                v.id == vid || v.version_number == vid) with
          | some m => m
          | none => v0
        | none => v0
      (target.download_url, target.version_number)
  else if plugin.source == "hangar" then
    match hangar_versions with
    | [] => (none, "")
    | v0 :: _ =>
      let target :=
        match version_id with
        | some vid =>
          match hangar_versions.find?
              (fun v : PluginVersion =>
                v.id == vid || v.version_number == vid) with
          | some m => m
          | none => v0
        | none => v0
      (hangar_download_url target.id, target.version_number)
  else if plugin.source == "spigotmc" then
    let vid := match version_id with
               | some v => if v == "" then "latest" else v
               | none => "latest"
    (spigot_download_url vid, vid)
  else if plugin.source == "curseforge" then
    match curseforge_versions with
    | [] => (none, "")
    | v0 :: _ =>
      let target :=
        match version_id with
        | some vid =>
          match curseforge_versions.find?
              (fun v : PluginVersion => v.id == vid) with
          | some m => m
          | none => v0
        | none => v0
      let url := match target.download_url with
                 | some u => some u
                 | none => curseforge_download_url target.id
      (url, target.version_number)
  else (none, "")

/-! Recursive dependency resolution (plugin_manager._install_dependencies
together with the recursive install_plugin call it makes).  The external
world of one install chain is fixed up front: dependency lists, plugin
info lookups, version resolution and downloaded bytes per source id.
Recursion depth is bounded by explicit fuel: a none result means the
chain did not complete within the given depth, for any concrete run the
regime in which Python raises RecursionError. -/

/-- External calls made during one install chain, keyed by source id. -/
structure DepWorld where
  deps : String → List String
  info : String → Option PluginSearchResult
  resolve : String → Option (String × String)
  download : String → Nat
  valid : Nat → Bool
  meta_of : Nat → Option PluginMeta

mutual

/-- PluginManager.install_plugin with auto_deps=True and a pre-resolved
PluginSearchResult: resolve the version, run the dependency pass (the
source calls _install_dependencies without the _resolved argument, so
the per-call set always starts empty here), then the core install.  The
result of the dependency pass only produces a log warning in the source,
so it is discarded apart from its state. -/
def install_plugin_fuel (w : DepWorld) (mc now : String) :
    Nat → PMState → PluginSearchResult → Option (Result × PMState)
  | 0, _, _ => none
  | fuel + 1, st, plugin =>
    match w.resolve plugin.id with
    | none =>
      some (Result.fail "Could not resolve download URL"
        (some "Version not found or API error"), st)
    | some (download_url, resolved_version) =>
      match install_deps_fuel w mc now fuel st plugin [] with
      | none => none
      | some (_, st1) =>
        some (install_core mc st1 plugin download_url resolved_version
          true (w.download plugin.id) w.valid w.meta_of now)
termination_by fuel _st _plugin => (fuel, 0, 0)

/-- PluginManager._install_dependencies: return early when this id is in
the resolved set, record it, then walk the declared dependency ids.  The
extended set is not forwarded anywhere, exactly as in the source, where
the recursive call goes through install_plugin, which never passes
_resolved. -/
def install_deps_fuel (w : DepWorld) (mc now : String) :
    Nat → PMState → PluginSearchResult → List String →
    Option (Result × PMState)
  | fuel, st, plugin, resolved =>
    if resolved.contains plugin.id then
      some (Result.ok "Already resolved", st)
    else
      let _resolved1 := plugin.id :: resolved
      let dep_names := w.deps plugin.id
      if dep_names.isEmpty then
        some (Result.ok "No dependencies required", st)
      else
        install_deps_loop w mc now fuel st plugin.source dep_names [] []
termination_by fuel _st _plugin _resolved => (fuel, 2, 0)

/-- Loop body of _install_dependencies over the dependency ids: skip ids
already installed (by source_id), look the dependency up, recursively
install it with auto dependencies, and accumulate installed and failed
lists; a nonempty failed list produces a failed Result, which the parent
install only logs. -/
def install_deps_loop (w : DepWorld) (mc now : String) :
    Nat → PMState → String → List String → List String → List String →
    Option (Result × PMState)
  | _, st, _, [], _installed_deps, failed =>
    some
      (if ¬ failed.isEmpty then
        Result.fail "Some dependencies failed"
          (some "Dependency installation incomplete")
       else Result.ok "Installed dependencies", st)
  | fuel, st, src, dep_id :: rest, installed_deps, failed =>
    if st.installed.any (fun p => p.source_id == dep_id) then
      install_deps_loop w mc now fuel st src rest installed_deps failed
    else
      match w.info dep_id with
      | none =>
        install_deps_loop w mc now fuel st src rest installed_deps
          (failed ++ [dep_id])
      | some dep_info =>
        let dep_plugin : PluginSearchResult :=
          { id := dep_info.id, name := dep_info.name,
            description := dep_info.description,
            author := dep_info.author, downloads := dep_info.downloads,
            source := src }
        match install_plugin_fuel w mc now fuel st dep_plugin with
        | none => none
        | some (res, st1) =>
          if res.success then
            install_deps_loop w mc now fuel st1 src rest
              (installed_deps ++ [dep_info.name]) failed
          else
            install_deps_loop w mc now fuel st1 src rest installed_deps
              (failed ++ [dep_id])
termination_by fuel _st _src deps _installed_deps _failed =>
  (fuel, 1, deps.length)

end

/-! Concrete instances used by witnesses, counterexamples and the
scenario conjuncts of the theorems below. -/

/-- Predicate on a list of issues: no issue has error severity. -/
def no_error_issues (issues : List ValidationIssue) : Bool :=
  issues.all (fun i => !(i.severity == "error"))

/-- The invariant linking is_valid to the issue list: is_valid is true
exactly while no error-severity issue has been added. -/
def ValidOk (r : ValidationResult) : Prop :=
  r.is_valid = no_error_issues r.issues

/-- Search results of the aggregate-search scenario of the spec: four
results with download counts 100, 500, 50, 500 across the three
adapters applicable to a paper server. -/
def fx_r100 : PluginSearchResult :=
  { id := "m1", name := "WorldEditA", downloads := 100,
    source := "modrinth" }

/-- Second modrinth result of the scenario, 500 downloads. -/
def fx_r500a : PluginSearchResult :=
  { id := "m2", name := "WorldEditB", downloads := 500,
    source := "modrinth" }

/-- Hangar result of the scenario, 50 downloads. -/
def fx_r50 : PluginSearchResult :=
  { id := "h1", name := "WorldEditC", downloads := 50,
    source := "hangar" }

/-- SpigotMC result of the scenario, 500 downloads, tied with the
modrinth one. -/
def fx_r500b : PluginSearchResult :=
  { id := "s1", name := "WorldEditD", downloads := 500,
    source := "spigotmc" }

/-- Root plugin A of the dependency cycle. -/
def fx_pA : PluginSearchResult :=
  { id := "A", name := "PluginA", source := "modrinth" }

/-- Plugin B of the dependency cycle. -/
def fx_pB : PluginSearchResult :=
  { id := "B", name := "PluginB", source := "modrinth" }

/-- External world with the dependency cycle A to B to A: both resolve
and download fine, and each declares the other as its only required
dependency. -/
def fx_cycle_world : DepWorld :=
  { deps := fun i => if i = "A" then ["B"]
                     else if i = "B" then ["A"] else [],
    info := fun i => if i = "A" then some fx_pA
                     else if i = "B" then some fx_pB else none,
    resolve := fun _ => some ("https://x/p", "1.0"),
    download := fun _ => 0,
    valid := fun _ => true,
    meta_of := fun _ => none }

/-- Fresh manager state: nothing installed, empty plugin directory. -/
def fx_st0 : PMState :=
  { installed := [], plugins_fs := [], backups := [], persisted := none,
    download_count := 0 }

/-- Installed record for the failed-update scenario: version 1.0 at
p.jar with file content 7. -/
def fx_recP : InstalledPlugin :=
  { name := "Worldedit", version := "1.0", source := "modrinth",
    source_id := "we", filename := "p.jar", installed_at := "t0",
    mc_version := "1.20.4", file_size := 7 }

/-- Manager state with fx_recP installed and its jar on disk. -/
def fx_stP : PMState :=
  { installed := [fx_recP], plugins_fs := [("p.jar", 7)], backups := [],
    persisted := some [fx_recP.to_dict], download_count := 0 }

/-- Search result matching fx_recP for an install over it. -/
def fx_plgP : PluginSearchResult :=
  { id := "we", name := "Worldedit", source := "modrinth" }

/-- Newest version entry offered for the update of fx_recP. -/
def fx_newV : PluginVersion :=
  { id := "v2", version_number := "2.0",
    download_url := some "https://x/p.jar" }

/-- Search result for the idempotent-install witness. -/
def fx_plgC3 : PluginSearchResult :=
  { id := "ess", name := "Essentials", source := "modrinth",
    description := "d", author := "a" }

/-- Installed record named WorldEdit (mixed case) for the uninstall
casing scenario. -/
def fx_recWE : InstalledPlugin :=
  { name := "WorldEdit", version := "1.0", source := "modrinth",
    source_id := "we2", filename := "we.jar", installed_at := "t0" }

/-- Manager state with fx_recWE installed and its jar on disk. -/
def fx_stWE : PMState :=
  { installed := [fx_recWE], plugins_fs := [("we.jar", 5)],
    backups := [], persisted := some [fx_recWE.to_dict],
    download_count := 0 }

/-- Installed record named worldedit (lower case) for the install
casing scenario. -/
def fx_recLower : InstalledPlugin :=
  { name := "worldedit", version := "1.0", source := "modrinth",
    source_id := "we2", filename := "we.jar", installed_at := "t0" }

/-- Manager state with fx_recLower installed. -/
def fx_stLower : PMState :=
  { installed := [fx_recLower], plugins_fs := [("we.jar", 5)],
    backups := [], persisted := some [fx_recLower.to_dict],
    download_count := 0 }

/-- Search result named WorldEdit (mixed case) installed over
fx_recLower. -/
def fx_plgWE : PluginSearchResult :=
  { id := "we2", name := "WorldEdit", source := "modrinth" }

/-- Record whose jar exists, for the reconciliation scenario. -/
def fx_recA : InstalledPlugin :=
  { name := "Alpha", version := "1", source := "manual", source_id := "",
    filename := "a.jar", installed_at := "t" }

/-- Record whose jar was deleted out-of-band. -/
def fx_recB : InstalledPlugin :=
  { name := "Beta", version := "1", source := "manual", source_id := "",
    filename := "b.jar", installed_at := "t" }

/-- Registry with two records, of which only a.jar still exists. -/
def fx_stC5 : PMState :=
  { installed := [fx_recA, fx_recB], plugins_fs := [("a.jar", 1)],
    backups := [],
    persisted := some [fx_recA.to_dict, fx_recB.to_dict],
    download_count := 0 }

/-- Modrinth descriptor for the version-resolution counterexample. -/
def fx_plgM : PluginSearchResult :=
  { id := "m", name := "M", source := "modrinth" }

/-- Newest version entry, 2.0 with a direct URL. -/
def fx_v20 : PluginVersion :=
  { id := "A", version_number := "2.0", download_url := some "u2" }

/-- Older version entry, 1.0 with a direct URL. -/
def fx_v10 : PluginVersion :=
  { id := "B", version_number := "1.0", download_url := some "u1" }

/-- Secondary download-URL call that always fails. -/
def fx_nourl : String → Option String := fun _ => none

/-- Bukkit metadata named Alpha declaring one hard dependency that is
absent from the directory. -/
def fx_metaAlpha : PluginMeta :=
  { name := "Alpha", version := "1.0", depend := ["MissingDep"] }

/-- Bukkit metadata named Alpha without dependencies. -/
def fx_metaAlpha2 : PluginMeta :=
  { name := "Alpha", version := "0.9" }

/-- A well-formed jar whose zip contains one corrupt member (testzip
reports x.class) and whose plugin.yml parses to fx_metaAlpha. -/
def fx_jarCorrupt : JarFile :=
  { stem := "alpha", is_jar_suffix := true, exists_on_disk := true,
    size := 10, valid_zip := true, names := ["plugin.yml"],
    parse := fun n => if n = "plugin.yml" then some fx_metaAlpha
                      else none,
    testzip_bad := some "x.class" }

/-- A healthy jar whose plugin.yml parses to fx_metaAlpha2. -/
def fx_jarOtherAlpha : JarFile :=
  { stem := "other", is_jar_suffix := true, exists_on_disk := true,
    size := 5, valid_zip := true, names := ["plugin.yml"],
    parse := fun n => if n = "plugin.yml" then some fx_metaAlpha2
                      else none,
    testzip_bad := none }

/-- A second healthy jar declaring the same manifest name Alpha. -/
def fx_jarNewAlpha : JarFile :=
  { stem := "alpha", is_jar_suffix := true, exists_on_disk := true,
    size := 6, valid_zip := true, names := ["plugin.yml"],
    parse := fun n => if n = "plugin.yml" then some fx_metaAlpha2
                      else none,
    testzip_bad := none }

/-- A file that is not a jar at all: metadata extraction yields
nothing. -/
def fx_jarNotJar : JarFile :=
  { stem := "readme", is_jar_suffix := false, exists_on_disk := true,
    size := 3, valid_zip := false, names := [], parse := fun _ => none,
    testzip_bad := none }

/-- Validator for a paper 1.20.4 server over an empty plugin
directory. -/
def fx_cfgPaper : PluginValidator :=
  PluginValidator.init "paper" "1.20.4" true []

/-- Validator for a paper 1.20.4 server whose directory already holds
other.jar with manifest name Alpha. -/
def fx_cfgDup : PluginValidator :=
  PluginValidator.init "paper" "1.20.4" true
    [("other.jar", fx_jarOtherAlpha)]

/-! Shared lemmas about the validation machinery. -/

theorem validOk_add_error (r : ValidationResult) (m f : String) :
    ValidOk (r.add_error m f) := by
  simp [ValidOk, ValidationResult.add_error, no_error_issues]

theorem validOk_add_warning (r : ValidationResult) (m f : String)
    (h : ValidOk r) : ValidOk (r.add_warning m f) := by
  simpa [ValidOk, ValidationResult.add_warning, no_error_issues] using h

theorem validOk_add_info (r : ValidationResult) (m f : String)
    (h : ValidOk r) : ValidOk (r.add_info m f) := by
  simpa [ValidOk, ValidationResult.add_info, no_error_issues] using h

theorem validOk_foldl {α : Type} (f : ValidationResult → α → ValidationResult)
    (hf : ∀ r x, ValidOk r → ValidOk (f r x)) :
    ∀ (l : List α) (r : ValidationResult), ValidOk r →
      ValidOk (l.foldl f r)
  | [], _, h => h
  | x :: xs, r, h => validOk_foldl f hf xs (f r x) (hf r x h)

theorem validOk_check_jar_integrity (jar : JarFile)
    (r : ValidationResult) (h : ValidOk r) :
    ValidOk (PluginValidator._check_jar_integrity jar r) := by
  unfold PluginValidator._check_jar_integrity
  split
  · exact validOk_add_error ..
  · split
    · exact validOk_add_error ..
    · split
      · exact validOk_add_error ..
      · split
        · exact validOk_add_warning _ _ _ h
        · exact h

theorem validOk_check_server_compatibility (cfg : PluginValidator)
    (meta : PluginMeta) (r : ValidationResult) (h : ValidOk r) :
    ValidOk (PluginValidator._check_server_compatibility cfg meta r) := by
  unfold PluginValidator._check_server_compatibility
  dsimp only
  split
  · exact validOk_add_error ..
  · exact h

theorem validOk_check_mc_version (cfg : PluginValidator)
    (meta : PluginMeta) (r : ValidationResult) (h : ValidOk r) :
    ValidOk (PluginValidator._check_mc_version cfg meta r) := by
  unfold PluginValidator._check_mc_version
  split
  · exact h
  · split
    · split
      · exact validOk_add_warning _ _ _ h
      · exact h
    · exact validOk_add_info _ _ _ h

theorem validOk_check_duplicates (cfg : PluginValidator)
    (meta : PluginMeta) (jar_path : String) (r : ValidationResult)
    (h : ValidOk r) :
    ValidOk (PluginValidator._check_duplicates cfg meta jar_path r) := by
  unfold PluginValidator._check_duplicates
  split
  · exact h
  · refine validOk_foldl _ (fun r' x hr' => ?_) cfg.dir r h
    dsimp only
    split
    · exact hr'
    · split
      · split
        · exact validOk_add_warning _ _ _ hr'
        · exact hr'
      · exact hr'

theorem validOk_check_dependencies (cfg : PluginValidator)
    (meta : PluginMeta) (r : ValidationResult) (h : ValidOk r) :
    ValidOk (PluginValidator._check_dependencies cfg meta r) := by
  unfold PluginValidator._check_dependencies
  dsimp only
  split
  · exact h
  · refine validOk_foldl _ (fun r' x hr' => ?_) meta.depend r h
    dsimp only
    split
    · exact validOk_add_warning _ _ _ hr'
    · exact hr'

theorem validOk_validate (cfg : PluginValidator) (jar_path : String)
    (jar : JarFile) : ValidOk (cfg.validate jar_path jar) := by
  unfold PluginValidator.validate
  split
  · exact validOk_add_error ..
  · dsimp only
    exact validOk_check_dependencies _ _ _
      (validOk_check_duplicates _ _ _ _
        (validOk_check_mc_version _ _ _
          (validOk_check_server_compatibility _ _ _
            (validOk_check_jar_integrity _ _ (by simp [ValidOk, no_error_issues])))))

theorem foldl_is_valid {α : Type}
    (f : ValidationResult → α → ValidationResult)
    (hf : ∀ r x, (f r x).is_valid = r.is_valid) :
    ∀ (l : List α) (r : ValidationResult),
      (l.foldl f r).is_valid = r.is_valid
  | [], _ => rfl
  | x :: xs, r => (foldl_is_valid f hf xs (f r x)).trans (hf r x)

theorem foldl_issues_origin {α : Type}
    (f : ValidationResult → α → ValidationResult) (d : ValidationIssue)
    (hf : ∀ r x i, i ∈ (f r x).issues → i ∈ r.issues ∨ i = d) :
    ∀ (l : List α) (r : ValidationResult) (i : ValidationIssue),
      i ∈ (l.foldl f r).issues → i ∈ r.issues ∨ i = d
  | [], _, _, h => Or.inl h
  | x :: xs, r, i, h =>
    match foldl_issues_origin f d hf xs (f r x) i h with
    | Or.inr e => Or.inr e
    | Or.inl hin => hf r x i hin

theorem foldl_issues_mono {α : Type}
    (f : ValidationResult → α → ValidationResult)
    (hf : ∀ r x i, i ∈ r.issues → i ∈ (f r x).issues) :
    ∀ (l : List α) (r : ValidationResult) (i : ValidationIssue),
      i ∈ r.issues → i ∈ (l.foldl f r).issues
  | [], _, _, h => h
  | x :: xs, r, i, h =>
    foldl_issues_mono f hf xs (f r x) i (hf r x i h)

/-- The per-entry step of _check_duplicates never drops an issue. -/
theorem dup_step_mono (meta : PluginMeta) (jar_path : String)
    (r : ValidationResult) (x : String × JarFile) (i : ValidationIssue)
    (h : i ∈ r.issues) :
    i ∈ ((fun (r : ValidationResult) (other : String × JarFile) =>
      if other.1 == jar_path then r
      else
        match extract_plugin_meta other.2 with
        | some other_meta =>
          if other_meta.name == meta.name then
            r.add_warning "Duplicate plugin detected" "duplicate"
          else r
        | none => r) r x).issues := by
  dsimp only
  split
  · exact h
  · split
    · split
      · simpa [ValidationResult.add_warning] using Or.inl h
      · exact h
    · exact h

/-- When the directory holds a different jar whose extracted name
matches, the duplicate fold contains the duplicate warning. -/
theorem dup_warning_added (meta : PluginMeta) (jar_path : String)
    (p : String × JarFile) (m : PluginMeta)
    (hne : (p.1 == jar_path) = false)
    (hm : extract_plugin_meta p.2 = some m)
    (hname : (m.name == meta.name) = true) :
    ∀ (l : List (String × JarFile)) (r : ValidationResult), p ∈ l →
      (⟨"warning", "Duplicate plugin detected", "duplicate"⟩ :
        ValidationIssue) ∈
        (l.foldl (fun (r : ValidationResult) (other : String × JarFile) =>
          if other.1 == jar_path then r
          else
            match extract_plugin_meta other.2 with
            | some other_meta =>
              if other_meta.name == meta.name then
                r.add_warning "Duplicate plugin detected" "duplicate"
              else r
            | none => r) r).issues := by
  intro l
  induction l with
  | nil => intro r hp; cases hp
  | cons x xs ih =>
    intro r hp
    rcases List.mem_cons.mp hp with hpx | hpxs
    · subst hpx
      simp only [List.foldl_cons]
      refine foldl_issues_mono _ (dup_step_mono meta jar_path) xs _ _ ?_
      rw [hne]
      simp only [Bool.false_eq_true, if_false, hm, hname, if_true]
      simp [ValidationResult.add_warning]
    · exact ih _ hpxs

/-- C9: for every archive validated while another archive in the plugin
directory has the same extracted manifest name, the duplicate-detection
check adds a warning-severity issue and never an error-severity issue
(every issue it emits beyond its input is the duplicate warning, and
is_valid passes through unchanged), and validity of the whole run equals
the absence of error-severity issues; the final conjunct evaluates the
two-archives scenario. -/
theorem duplicate_detection_warns_never_errors :
    ∀ (cfg : PluginValidator) (meta : PluginMeta) (jar_path : String)
      (r : ValidationResult),
    ((PluginValidator._check_duplicates cfg meta jar_path r).is_valid
        = r.is_valid)
    ∧ (∀ i, i ∈ (PluginValidator._check_duplicates cfg meta jar_path
          r).issues →
        i ∈ r.issues
        ∨ i = ⟨"warning", "Duplicate plugin detected", "duplicate"⟩)
    ∧ (cfg.dir_exists = true →
        ∀ p, p ∈ cfg.dir → (p.1 == jar_path) = false →
        ∀ m, extract_plugin_meta p.2 = some m →
        (m.name == meta.name) = true →
        (⟨"warning", "Duplicate plugin detected", "duplicate"⟩ :
          ValidationIssue) ∈
          (PluginValidator._check_duplicates cfg meta jar_path r).issues)
    ∧ (∀ jar, (cfg.validate jar_path jar).is_valid
        = no_error_issues (cfg.validate jar_path jar).issues)
    ∧ (fx_cfgDup.validate "alpha.jar" fx_jarNewAlpha
        = ⟨"Alpha", true,
           [⟨"warning", "Duplicate plugin detected", "duplicate"⟩]⟩) := by
  intro cfg meta jar_path r
  refine ⟨?_, ?_, ?_, ?_, by decide⟩
  · unfold PluginValidator._check_duplicates
    split
    · rfl
    · refine foldl_is_valid _ (fun r' x => ?_) cfg.dir r
      dsimp only
      split
      · rfl
      · split
        · split
          · simp [ValidationResult.add_warning]
          · rfl
        · rfl
  · unfold PluginValidator._check_duplicates
    split
    · exact fun i h => Or.inl h
    · refine fun i h =>
        foldl_issues_origin _ _ (fun r' x i' h' => ?_) cfg.dir r i h
      revert h'
      split
      · exact fun h' => Or.inl h'
      · split
        · split
          · intro h'
            simpa [ValidationResult.add_warning] using h'
          · exact fun h' => Or.inl h'
        · exact fun h' => Or.inl h'
  · intro hdir p hp hne m hm hname
    unfold PluginValidator._check_duplicates
    rw [hdir]
    simpa using dup_warning_added meta jar_path p m hne hm hname cfg.dir r hp
  · exact fun jar => validOk_validate cfg jar_path jar

/-- C10: whenever metadata extraction yields nothing, validation returns
a result named after the file stem, invalid, with exactly the one
error-severity issue about failing to extract metadata, and no other
check runs. -/
theorem validate_unidentified_archive :
    ∀ (cfg : PluginValidator) (jar_path : String) (jar : JarFile),
    extract_plugin_meta jar = none →
    cfg.validate jar_path jar =
      ⟨jar.stem, false,
       [⟨"error", "Could not extract plugin metadata from JAR file",
         ""⟩]⟩ := by
  intro cfg jar_path jar h
  unfold PluginValidator.validate
  rw [h]
  rfl

/-- Witness: a non-.jar path yields exactly the single metadata error. -/
theorem validate_unidentified_archive_witness :
    fx_cfgPaper.validate "readme.txt" fx_jarNotJar =
      ⟨"readme", false,
       [⟨"error", "Could not extract plugin metadata from JAR file",
         ""⟩]⟩ :=
  validate_unidentified_archive fx_cfgPaper "readme.txt" fx_jarNotJar
    (by decide)

/-- C8 counterexample: a valid bukkit archive whose zip has a corrupt
member (testzip reports x.class) validates to two warnings and no error:
the corrupt member produced only a warning, is_valid stayed true, and
the later dependency check still ran (its warning is present). -/
theorem integrity_corrupt_member_only_warns :
    fx_cfgPaper.validate "alpha.jar" fx_jarCorrupt =
      ⟨"Alpha", true,
       [⟨"warning", "Corrupted file inside JAR", ""⟩,
        ⟨"warning", "Required dependency not found in plugins directory",
         "depend"⟩]⟩
    ∧ fx_jarCorrupt.testzip_bad = some "x.class" := by
  decide

/-- C8 amended: the integrity check errors exactly on a missing file, a
zero-size file, or an archive that does not open as a zip; a corrupt
member yields only a warning; and when extraction succeeded the
remaining checks all run on the integrity output regardless of what it
found. -/
theorem integrity_severities_and_sequencing :
    ∀ (cfg : PluginValidator) (jar_path : String) (jar : JarFile)
      (meta : PluginMeta) (bad : String) (r : ValidationResult),
    (jar.exists_on_disk = false →
      PluginValidator._check_jar_integrity jar r
        = r.add_error "File not found")
    ∧ (jar.exists_on_disk = true → jar.size = 0 →
      PluginValidator._check_jar_integrity jar r
        = r.add_error "JAR file is empty (0 bytes)")
    ∧ (jar.exists_on_disk = true → jar.size ≠ 0 → jar.valid_zip = false →
      PluginValidator._check_jar_integrity jar r
        = r.add_error "File is not a valid JAR/ZIP archive")
    ∧ (jar.exists_on_disk = true → jar.size ≠ 0 → jar.valid_zip = true →
      jar.testzip_bad = some bad →
      PluginValidator._check_jar_integrity jar r
        = r.add_warning "Corrupted file inside JAR")
    ∧ (extract_plugin_meta jar = some meta →
      jar.exists_on_disk = true → jar.size ≠ 0 → jar.valid_zip = true →
      jar.testzip_bad = some bad →
      cfg.validate jar_path jar =
        PluginValidator._check_dependencies cfg meta
          (PluginValidator._check_duplicates cfg meta jar_path
            (PluginValidator._check_mc_version cfg meta
              (PluginValidator._check_server_compatibility cfg meta
                (ValidationResult.add_warning ⟨meta.name, true, []⟩
                  "Corrupted file inside JAR"))))) := by
  intro cfg jar_path jar meta bad r
  refine ⟨?_, ?_, ?_, ?_, ?_⟩
  · intro h
    simp [PluginValidator._check_jar_integrity, h]
  · intro h1 h2
    simp [PluginValidator._check_jar_integrity, h1, h2]
  · intro h1 h2 h3
    simp [PluginValidator._check_jar_integrity, h1, h2, h3]
  · intro h1 h2 h3 h4
    simp [PluginValidator._check_jar_integrity, h1, h2, h3, h4]
  · intro hm h1 h2 h3 h4
    unfold PluginValidator.validate
    rw [hm]
    dsimp only
    rw [show PluginValidator._check_jar_integrity jar
        ⟨meta.name, true, []⟩
        = ValidationResult.add_warning ⟨meta.name, true, []⟩
            "Corrupted file inside JAR" by
      simp [PluginValidator._check_jar_integrity, h1, h2, h3, h4]]

/-- C7 counterexample: a modrinth descriptor with a nonempty version
list and an explicit identifier matching no entry id and no display
version resolves to the newest entry (URL u2, version 2.0), not to the
empty result. -/
theorem resolve_version_no_match_not_empty :
    _resolve_version fx_plgM [fx_v20, fx_v10] [] [] fx_nourl fx_nourl
      fx_nourl (some "zzz") = (some "u2", "2.0")
    ∧ (∀ v ∈ [fx_v20, fx_v10],
        ¬ (v.id = "zzz" ∨ v.version_number = "zzz")) := by
  decide

/-- C7 amended: for the version-list-backed sources, resolution returns
the empty result exactly when the version list is empty; an explicit
identifier selects the matching entry (id or display version, id only
for CurseForge) when one exists, and otherwise resolution falls back to
the newest entry instead of returning the empty result; the URL comes
from the entry (Modrinth), the secondary call (Hangar) or the entry
with a secondary fallback (CurseForge). -/
theorem resolve_version_explicit_fallback :
    ∀ (plugin : PluginSearchResult) (mv hv cv : List PluginVersion)
      (hurl surl curl : String → Option String) (vid : Option String),
    (plugin.source = "modrinth" →
      (_resolve_version plugin [] hv cv hurl surl curl vid = (none, ""))
      ∧ (∀ v0 rest, mv = v0 :: rest →
          (vid = none →
            _resolve_version plugin mv hv cv hurl surl curl vid
              = (v0.download_url, v0.version_number))
          ∧ (∀ s m, vid = some s →
              mv.find? (fun v : PluginVersion =>
                v.id == s || v.version_number == s) = some m →
              _resolve_version plugin mv hv cv hurl surl curl vid
                = (m.download_url, m.version_number))
          ∧ (∀ s, vid = some s →
              mv.find? (fun v : PluginVersion =>
                v.id == s || v.version_number == s) = none →
              _resolve_version plugin mv hv cv hurl surl curl vid
                = (v0.download_url, v0.version_number))))
    ∧ (plugin.source = "hangar" →
      (_resolve_version plugin mv [] cv hurl surl curl vid = (none, ""))
      ∧ (∀ v0 rest, hv = v0 :: rest →
          (vid = none →
            _resolve_version plugin mv hv cv hurl surl curl vid
              = (hurl v0.id, v0.version_number))
          ∧ (∀ s m, vid = some s →
              hv.find? (fun v : PluginVersion =>
                v.id == s || v.version_number == s) = some m →
              _resolve_version plugin mv hv cv hurl surl curl vid
                = (hurl m.id, m.version_number))
          ∧ (∀ s, vid = some s →
              hv.find? (fun v : PluginVersion =>
                v.id == s || v.version_number == s) = none →
              _resolve_version plugin mv hv cv hurl surl curl vid
                = (hurl v0.id, v0.version_number))))
    ∧ (plugin.source = "curseforge" →
      (_resolve_version plugin mv hv [] hurl surl curl vid = (none, ""))
      ∧ (∀ v0 rest, cv = v0 :: rest →
          (vid = none →
            _resolve_version plugin mv hv cv hurl surl curl vid
              = (match v0.download_url with
                 | some u => some u
                 | none => curl v0.id, v0.version_number))
          ∧ (∀ s m, vid = some s →
              cv.find? (fun v : PluginVersion => v.id == s) = some m →
              _resolve_version plugin mv hv cv hurl surl curl vid
                = (match m.download_url with
                   | some u => some u
                   | none => curl m.id, m.version_number))
          ∧ (∀ s, vid = some s →
              cv.find? (fun v : PluginVersion => v.id == s) = none →
              _resolve_version plugin mv hv cv hurl surl curl vid
                = (match v0.download_url with
                   | some u => some u
                   | none => curl v0.id, v0.version_number)))) := by
  intro plugin mv hv cv hurl surl curl vid
  refine ⟨fun hsrc => ⟨?_, ?_⟩, fun hsrc => ⟨?_, ?_⟩,
          fun hsrc => ⟨?_, ?_⟩⟩
  · simp [_resolve_version, hsrc]
  · rintro v0 rest rfl
    refine ⟨fun hv0 => ?_, fun s m hs hfind => ?_, fun s hs hfind => ?_⟩
    · subst hv0; simp [_resolve_version, hsrc]
    · subst hs; simp [_resolve_version, hsrc, hfind]
    · subst hs; simp [_resolve_version, hsrc, hfind]
  · simp [_resolve_version, hsrc]
  · rintro v0 rest rfl
    refine ⟨fun hv0 => ?_, fun s m hs hfind => ?_, fun s hs hfind => ?_⟩
    · subst hv0; simp [_resolve_version, hsrc]
    · subst hs; simp [_resolve_version, hsrc, hfind]
    · subst hs; simp [_resolve_version, hsrc, hfind]
  · simp [_resolve_version, hsrc]
  · rintro v0 rest rfl
    refine ⟨fun hv0 => ?_, fun s m hs hfind => ?_, fun s hs hfind => ?_⟩
    · subst hv0; simp [_resolve_version, hsrc]
    · subst hs; simp [_resolve_version, hsrc, hfind]
    · subst hs; simp [_resolve_version, hsrc, hfind]

/-- Inserting into the stable descending sort preserves the sublist of
any fixed download count: elements skipped on the way in have strictly
larger download counts, so they never share a count with the inserted
element. -/
theorem orderedInsert_filter_downloads (d : Nat) (x : PluginSearchResult) :
    ∀ s : List PluginSearchResult,
      (List.orderedInsert downloadsDescRel x s).filter
          (fun r => r.downloads == d)
        = if x.downloads == d
          then x :: s.filter (fun r => r.downloads == d)
          else s.filter (fun r => r.downloads == d)
  | [] => by
    by_cases hx : (x.downloads == d) = true <;>
      simp [List.orderedInsert, hx]
  | y :: ys => by
    simp only [List.orderedInsert]
    by_cases hr : downloadsDescRel x y
    · rw [if_pos hr]
      by_cases hx : (x.downloads == d) = true <;>
        by_cases hy : (y.downloads == d) = true <;>
        simp [List.filter_cons, hx, hy]
    · rw [if_neg hr]
      have ih := orderedInsert_filter_downloads d x ys
      by_cases hx : (x.downloads == d) = true <;>
        by_cases hy : (y.downloads == d) = true
      · exact absurd
          (show downloadsDescRel x y by
            have hx' : x.downloads = d := by simpa using hx
            have hy' : y.downloads = d := by simpa using hy
            simp [downloadsDescRel, hx', hy'])
          hr
      · simp [List.filter_cons, hx, hy, ih]
      · simp [List.filter_cons, hx, hy, ih]
      · simp [List.filter_cons, hx, hy, ih]

/-- The stable descending sort leaves each download-count class in its
original order: filtering by any fixed count commutes with sorting. -/
theorem insertionSort_filter_downloads (d : Nat) :
    ∀ l : List PluginSearchResult,
      (l.insertionSort downloadsDescRel).filter
          (fun r => r.downloads == d)
        = l.filter (fun r => r.downloads == d)
  | [] => rfl
  | x :: l => by
    simp only [List.insertionSort]
    rw [orderedInsert_filter_downloads d x
        (l.insertionSort downloadsDescRel),
      insertionSort_filter_downloads d l]
    by_cases hx : (x.downloads == d) = true <;>
      simp [List.filter_cons, hx]

/-- C6: aggregate search returns a permutation of the concatenation of
the applicable adapter results, sorted by descending download count,
and stably so: each download-count class keeps the source-adapter
order.  The last conjunct runs the spec scenario: counts 100, 500, 50,
500 across the three adapters applicable to paper come back as 500,
500 (in source order), 100, 50. -/
theorem aggregate_search_stable_sorted :
    ∀ (server_type : String)
      (modrinth_results hangar_results spigot_results
        curseforge_results : List PluginSearchResult),
    (search_plugins server_type modrinth_results hangar_results
        spigot_results curseforge_results).Perm
      (search_concat server_type modrinth_results hangar_results
        spigot_results curseforge_results)
    ∧ List.Sorted downloadsDescRel
        (search_plugins server_type modrinth_results hangar_results
          spigot_results curseforge_results)
    ∧ (∀ d : Nat,
        (search_plugins server_type modrinth_results hangar_results
            spigot_results curseforge_results).filter
          (fun r => r.downloads == d)
        = (search_concat server_type modrinth_results hangar_results
            spigot_results curseforge_results).filter
          (fun r => r.downloads == d))
    ∧ search_plugins "paper" [fx_r100, fx_r500a] [fx_r50] [fx_r500b] []
        = [fx_r500a, fx_r500b, fx_r100, fx_r50] := by
  intro st m h s c
  have hdef : search_plugins st m h s c
      = (search_concat st m h s c).insertionSort downloadsDescRel := rfl
  refine ⟨?_, ?_, ?_, by decide⟩
  · rw [hdef]; exact List.perm_insertionSort _ _
  · rw [hdef]; exact List.sorted_insertionSort _ _
  · intro d; rw [hdef]; exact insertionSort_filter_downloads d _

/-- C5: listing returns exactly the records whose backing file exists;
when at least one backing file is missing the pruned table is persisted,
and loading the persisted registry returns exactly the pruned list, so
the dropped records are gone from it.  The final conjunct runs the
out-of-band deletion scenario: of records Alpha and Beta, only a.jar
exists, and the persisted registry loads back as just Alpha. -/
theorem listing_reconciles_and_persists :
    ∀ st : PMState,
    ((get_installed_plugins st).1
      = st.installed.filter
          (fun p => (fsGet st.plugins_fs p.filename).isSome))
    ∧ ((∃ p, p ∈ st.installed ∧ fsGet st.plugins_fs p.filename = none) →
        (get_installed_plugins st).2.persisted
          = some ((get_installed_plugins st).1.map
              InstalledPlugin.to_dict)
        ∧ _load_registry (get_installed_plugins st).2.persisted
          = (get_installed_plugins st).1)
    ∧ _load_registry (get_installed_plugins fx_stC5).2.persisted
        = [fx_recA] := by
  intro st
  refine ⟨?_, ?_, by decide⟩
  · unfold get_installed_plugins
    dsimp only
    split <;> rfl
  · rintro ⟨p, hp, hnone⟩
    have hmem : p ∈ st.installed.filter
        (fun q => !((fsGet st.plugins_fs q.filename).isSome)) := by
      simp only [List.mem_filter]
      exact ⟨hp, by simp [hnone]⟩
    have hpos : 0 < (st.installed.filter
        (fun q => !((fsGet st.plugins_fs q.filename).isSome))).length :=
      List.length_pos.mpr (List.ne_nil_of_mem hmem)
    have hlen := List.length_eq_length_filter_add
      (l := st.installed)
      (fun q => (fsGet st.plugins_fs q.filename).isSome)
    have hbranch : st.installed.length
        - (st.installed.filter
            (fun q => (fsGet st.plugins_fs q.filename).isSome)).length
        > 0 := by omega
    unfold get_installed_plugins
    dsimp only
    rw [if_pos hbranch]
    refine ⟨rfl, ?_⟩
    simp only [_save_registry, _load_registry, Option.getD_some,
      List.map_map]
    exact List.map_congr_left (fun r _ => rfl) |>.trans (List.map_id _)

/-- C2 divergence exhibit: updating installed plugin Worldedit (file
p.jar with bytes 7) to a 2.0 archive that fails validation leaves
p.jar byte-identical (the backup is restored), but running the same
failed update through install_plugin, whose resolved filename collides
with the installed one, deletes the freshly overwritten p.jar without
restoring the backup: the previously installed file is gone. -/
theorem failed_validation_update_restores_install_does_not :
    ((update_core fx_stP "Worldedit" [fx_newV] (some "https://x/p.jar")
        true 9 (fun _ => false) "t1").1.success = false
     ∧ fsGet (update_core fx_stP "Worldedit" [fx_newV]
          (some "https://x/p.jar") true 9 (fun _ => false)
          "t1").2.plugins_fs "p.jar" = some 7)
    ∧ ((install_core "1.20.4" fx_stP fx_plgP "https://x/p.jar" "2.0"
          true 9 (fun _ => false) (fun _ => none) "t1").1.success = false
       ∧ fsGet (install_core "1.20.4" fx_stP fx_plgP "https://x/p.jar"
            "2.0" true 9 (fun _ => false) (fun _ => none)
            "t1").2.plugins_fs "p.jar" = none
       ∧ (fx_stP.backups = [] ∧ (install_core "1.20.4" fx_stP fx_plgP
            "https://x/p.jar" "2.0" true 9 (fun _ => false)
            (fun _ => none) "t1").2.backups = [("Worldedit", 7)])) := by
  decide

/-- C4 divergence exhibit: uninstalling WorldEdit under the casing
worldedit reports success and deletes the jar, yet the registry record
survives in memory and in the persisted table; and installing WorldEdit
over an existing worldedit record leaves two records whose names differ
only in case. -/
theorem uninstall_install_casing_divergence :
    ((uninstall_plugin fx_stWE "worldedit").1.success = true
     ∧ (uninstall_plugin fx_stWE "worldedit").2.installed = [fx_recWE]
     ∧ fsGet (uninstall_plugin fx_stWE "worldedit").2.plugins_fs "we.jar"
        = none
     ∧ (uninstall_plugin fx_stWE "worldedit").2.persisted
        = some [fx_recWE.to_dict])
    ∧ ((install_core "1.20.4" fx_stLower fx_plgWE "u" "2.0" true 9
          (fun _ => true) (fun _ => none) "t1").2.installed.map
            (fun p => p.name)) = ["worldedit", "WorldEdit"] := by
  decide

/-- C3: starting from a registry with no record for the plugin (under
the case-insensitive lookup), a successful install whose recorded
version ends up equal to the resolved version (the manifest either
supplies no version, an empty one, or the same string) leaves exactly
one record for the plugin; a second install resolving the same version
short-circuits: it returns the success Result of the already-installed
branch and the state unchanged, in particular with no further download
(the download counter sits in the state). -/
theorem install_same_version_idempotent :
    ∀ (mc now now2 download_url resolved_version : String)
      (st0 : PMState) (plugin : PluginSearchResult) (content : Nat)
      (vld : Nat → Bool) (mo : Nat → Option PluginMeta),
    get_plugin st0.installed plugin.name = none →
    vld content = true →
    (∀ m, mo content = some m →
      m.version = "" ∨ m.version = resolved_version) →
    ((install_core mc st0 plugin download_url resolved_version true
        content vld mo now).1.success = true)
    ∧ ((install_core mc st0 plugin download_url resolved_version true
        content vld mo now).2.installed.filter
          (fun p => py_lower p.name == py_lower plugin.name)).length = 1
    ∧ install_core mc
        (install_core mc st0 plugin download_url resolved_version true
          content vld mo now).2
        plugin download_url resolved_version true content vld mo now2
      = (Result.ok "already installed",
         (install_core mc st0 plugin download_url resolved_version true
           content vld mo now).2) := by
  intro mc now now2 durl rv st0 plugin content vld mo hget hvld hmeta
  have hnotmem : ∀ q ∈ st0.installed,
      (py_lower q.name == py_lower plugin.name) = false := by
    intro q hq
    have h := List.find?_eq_none.mp hget q hq
    simpa using h
  have hver : (match mo content with
      | some m => if ¬ m.version == "" then m.version else rv
      | none => rv) = rv := by
    cases hmo : mo content with
    | none => rfl
    | some m =>
      rcases hmeta m hmo with h | h <;> simp [h]
  set filename := _safe_filename plugin.name durl with hfn
  set rec : InstalledPlugin :=
    { name := plugin.name, version := rv, source := plugin.source,
      source_id := plugin.id, filename := filename, installed_at := now,
      mc_version := mc,
      dependencies := match mo content with
                      | some m => m.depend
                      | none => [],
      file_size := content, description := plugin.description,
      author := plugin.author } with hrec
  set st1 : PMState :=
    _save_registry
      { st0 with
        download_count := st0.download_count + 1,
        plugins_fs := fsSet st0.plugins_fs filename content,
        installed :=
          st0.installed.filter (fun p => !(p.name == plugin.name))
            ++ [rec] } with hst1
  have hphase : install_download_phase mc st0 plugin filename rv true
      content vld mo now = (Result.ok "Successfully installed", st1) := by
    unfold install_download_phase
    simp only [hvld, Bool.not_true, Bool.not_false, not_true, not_false_iff,
      if_false, if_true, ite_false, ite_true]
    rw [hver]
  have hfirst : install_core mc st0 plugin durl rv true content vld mo
      now = (Result.ok "Successfully installed", st1) := by
    unfold install_core
    rw [hget]
    exact hphase
  rw [hfirst]
  have hinst1 : st1.installed
      = st0.installed.filter (fun p => !(p.name == plugin.name))
        ++ [rec] := rfl
  refine ⟨rfl, ?_, ?_⟩
  · rw [hinst1, List.filter_append]
    have hleft : (st0.installed.filter
        (fun p => !(p.name == plugin.name))).filter
          (fun p => py_lower p.name == py_lower plugin.name) = [] := by
      rw [List.filter_eq_nil_iff]
      intro q hq
      simp [hnotmem q (List.mem_of_mem_filter hq)]
    rw [hleft]
    simp [hrec]
  · have hfind : get_plugin st1.installed plugin.name = some rec := by
      unfold get_plugin
      rw [hinst1, List.find?_append]
      have hA : (st0.installed.filter
          (fun p => !(p.name == plugin.name))).find?
            (fun p => py_lower p.name == py_lower plugin.name) = none := by
        rw [List.find?_eq_none]
        intro q hq
        simp [hnotmem q (List.mem_of_mem_filter hq)]
      rw [hA]
      simp [hrec]
    unfold install_core
    rw [hfind]
    simp

/-- Witness: installing Essentials 2.0 into an empty registry and
installing it again short-circuits with success and an unchanged
state. -/
theorem install_same_version_idempotent_witness :
    ((install_core "1.20.4" fx_st0 fx_plgC3 "https://x/e.jar" "2.0" true 9
        (fun _ => true) (fun _ => none) "t1").1.success = true)
    ∧ ((install_core "1.20.4" fx_st0 fx_plgC3 "https://x/e.jar" "2.0"
        true 9 (fun _ => true) (fun _ => none) "t1").2.installed.filter
          (fun p => py_lower p.name == py_lower fx_plgC3.name)).length = 1
    ∧ install_core "1.20.4"
        (install_core "1.20.4" fx_st0 fx_plgC3 "https://x/e.jar" "2.0"
          true 9 (fun _ => true) (fun _ => none) "t1").2
        fx_plgC3 "https://x/e.jar" "2.0" true 9 (fun _ => true)
        (fun _ => none) "t2"
      = (Result.ok "already installed",
         (install_core "1.20.4" fx_st0 fx_plgC3 "https://x/e.jar" "2.0"
           true 9 (fun _ => true) (fun _ => none) "t1").2) :=
  install_same_version_idempotent "1.20.4" "t1" "t2" "https://x/e.jar"
    "2.0" fx_st0 fx_plgC3 9 (fun _ => true) (fun _ => none) rfl rfl
    (fun _ h => nomatch h)

/-- C1: in the world with dependency cycle A to B to A and an empty
registry, the install of A never completes within any recursion depth:
the source creates a fresh already-processed set at every recursive
install_plugin call instead of threading one through, so the descent
A, B, A, B, ... only stops when the language call-depth limit raises.
-/
theorem dependency_cycle_never_completes :
    ∀ fuel : Nat,
      install_plugin_fuel fx_cycle_world "1.20.4" "t0" fuel fx_st0 fx_pA
        = none := by
  have key : ∀ fuel : Nat,
      install_plugin_fuel fx_cycle_world "1.20.4" "t0" fuel fx_st0 fx_pA
        = none
      ∧ install_plugin_fuel fx_cycle_world "1.20.4" "t0" fuel fx_st0
          fx_pB = none := by
    intro fuel
    induction fuel with
    | zero =>
      exact ⟨by rw [install_plugin_fuel], by rw [install_plugin_fuel]⟩
    | succ f ih =>
      simp only [fx_cycle_world, fx_pA, fx_pB, fx_st0] at ih ⊢
      constructor
      · rw [install_plugin_fuel]
        simp [install_deps_fuel, install_deps_loop, ih.1, ih.2]
      · rw [install_plugin_fuel]
        simp [install_deps_fuel, install_deps_loop, ih.1, ih.2]
  exact fun fuel => (key fuel).1

end MCSM
